import Mathlib

/-! A shallow embedding of the core of `api.py` from the Recipes-Recommendations
API: the cache-aside search helpers (`get_cached_results`, `cache_results`,
`get_recipes_by_query`), the click tracker (`store_click_data`), and the HTTP
endpoints (`get_recipes`, `record_click`).

Modelling conventions:
  * The Redis string store is an association list `CacheStore`; `SETEX`
    prepends an entry (the most recent entry shadows older ones, matching a
    key overwrite).  The payload is kept as a `List Item` rather than its
    Python `str(...)` serialization: the source writes `str(results)` and
    reads it back with `eval`, a round trip that is the identity on lists of
    `{title, link}` dicts, and `str(results)` is a non-empty string even for
    the empty list, so the truthiness test on the raw payload inside
    `get_cached_results` succeeds for every stored list.
  * Calls to the external collaborators (embedding encoder, vector-search
    backend, Redis commands) are recorded in an explicit `Event` trace so
    that "the encoder is invoked exactly once" style properties are
    statable.
  * Fallible collaborators are part of the environment `SearchEnv`: the
    encoder and the backend return `Except String` (the string is the
    Python exception's message, `str(e)`), and the single `SETEX` a run can
    issue has a fixed outcome `setexOutcome`, whose error distinguishes
    `redis.exceptions.OutOfMemoryError` from every other exception class,
    because `get_recipes_by_query` catches exactly that class.
  * Python ints are `Int`; Python list slicing (with its clamping and
    negative-index semantics) is `pySlice`.
-/

namespace RecipeApi

/-- An item of a result list, built at api.py lines 183-186: a dict with
exactly the two keys `title` and `link`. -/
structure Item where
  title : String
  link : String
deriving Repr, DecidableEq

/-- A document returned by the Redis vector search.  The fields `$.title` and
`$.link` may be absent, which the source reads with
`getattr(doc, '$.title', 'No title available')` (api.py lines 181-182). -/
structure Doc where
  title : Option String
  link : Option String
deriving Repr, DecidableEq

/-- A query vector, the output of `EMBEDDINGS_MODEL.encode`.  Its numeric
content is irrelevant to every claim, so coordinates are abstracted to `Int`. -/
abbrev Vec := List Int

/-- The Redis string keyspace, as an association list (newest entry first). -/
abbrev CacheStore := List (String × List Item)

/-- The Redis hash keyspace used by the click tracker: each key maps to the
value of its single `count` field. -/
abbrev ClickStore := List (String × Int)

/-- One call to an external collaborator, recorded in program order. -/
inductive Event where
  | cacheGet (key : String)
  | encodeCall (text : String)
  | searchCall (vec : Vec)
  | cacheSetex (key : String) (ttl : Nat) (value : List Item)
  | hashExists (key : String)
  | hashIncrBy (key : String) (field : String) (delta : Int)
  | hashSet (key : String) (field : String) (value : Int)
deriving Repr, DecidableEq

/-- An exception raised by a Redis write.  The source catches exactly
`redis.exceptions.OutOfMemoryError` (api.py line 196), so the model keeps
that class apart from every other exception. -/
inductive RedisError where
  | outOfMemory (msg : String)
  | other (msg : String)
deriving Repr, DecidableEq

/-- The message `str(e)` for a modelled Redis exception. -/
def RedisError.message : RedisError → String
  | .outOfMemory m => m
  | .other m => m

/-- The environment a search request runs against. -/
structure SearchEnv where
  encode : String → Except String Vec
  search : Vec → Except String (List Doc)
  store : CacheStore
  setexOutcome : Except RedisError Unit

/-- Outcome of one `get_recipes_by_query` run: the returned page (or the
propagated exception's message), the cache store afterwards, and the trace of
external calls. -/
structure RunResult where
  ret : Except String (List Item)
  store : CacheStore
  events : List Event

/-- The cache TTL `CACHE_EXPIRATION` (api.py line 84). -/
def CACHE_EXPIRATION : Nat := 3

/-- The cache key `f"search_cache:\x7bquery_text\x7d"` (api.py lines 124 and
140). -/
def cacheKey (query_text : String) : String := "search_cache:" ++ query_text

/-- The click key `f"clicks:\x7bquery\x7d:\x7blink\x7d"` (api.py line 219). -/
def clickKey (query link : String) : String := "clicks:" ++ query ++ ":" ++ link

/-- Clamp one Python slice endpoint to `[0, n]` for a list of length `n`:
negative indices count from the end, and both directions clamp. -/
def pyIndex (n : Nat) (i : Int) : Nat :=
  if i < 0 then ((n : Int) + i).toNat else min i.toNat n

/-- Python list slicing `l[a:b]`. -/
def pySlice (l : List Item) (a b : Int) : List Item :=
  let s := pyIndex l.length a
  let e := pyIndex l.length b
  (l.drop s).take (e - s)

/-- The function `get_cached_results` (api.py lines 116-128): one `GET` on the cache key;
the stored payload (when present) deserializes back to the stored list. -/
def get_cached_results (store : CacheStore) (query_text : String) :
    Option (List Item) × List Event :=
  (List.lookup (cacheKey query_text) store, [Event.cacheGet (cacheKey query_text)])

/-- The function `cache_results` (api.py lines 131-146): `SETEX` with `CACHE_EXPIRATION`;
on failure the function logs and re-raises the exception unchanged. -/
def cache_results (env : SearchEnv) (query_text : String) (results : List Item) :
    Except RedisError (CacheStore × Event) :=
  match env.setexOutcome with
  | .ok _ =>
      .ok ((cacheKey query_text, results) :: env.store,
           Event.cacheSetex (cacheKey query_text) CACHE_EXPIRATION results)
  | .error e => .error e

/-- An item built from one backend document (api.py lines 181-186). -/
def mkItem (d : Doc) : Item :=
  ⟨d.title.getD "No title available", d.link.getD "No link available"⟩

/-- The full `results_list` built from the backend documents (api.py
lines 179-186). -/
def buildItems (docs : List Doc) : List Item := docs.map mkItem

/-- The cache-miss tail of `get_recipes_by_query` (api.py lines 168-204):
encode, search (whose failures log and re-raise), attempt the cache write
catching only `OutOfMemoryError`, then slice. -/
def missPath (env : SearchEnv) (query_text : String) (page items_per_page : Int) :
    RunResult :=
  let start_idx := (page - 1) * items_per_page
  let end_idx := start_idx + items_per_page
  match env.encode query_text with
  | .error m =>
      ⟨.error m, env.store, [Event.cacheGet (cacheKey query_text), Event.encodeCall query_text]⟩
  | .ok vec =>
    match env.search vec with
    | .error m =>
        ⟨.error m, env.store,
         [Event.cacheGet (cacheKey query_text), Event.encodeCall query_text,
          Event.searchCall vec]⟩
    | .ok docs =>
      let results_list := buildItems docs
      match cache_results env query_text results_list with
      | .ok (store', ev) =>
          ⟨.ok (pySlice results_list start_idx end_idx), store',
           [Event.cacheGet (cacheKey query_text), Event.encodeCall query_text,
            Event.searchCall vec, ev]⟩
      | .error (.outOfMemory _) =>
          ⟨.ok (pySlice results_list start_idx end_idx), env.store,
           [Event.cacheGet (cacheKey query_text), Event.encodeCall query_text,
            Event.searchCall vec]⟩
      | .error (.other m) =>
          ⟨.error m, env.store,
           [Event.cacheGet (cacheKey query_text), Event.encodeCall query_text,
            Event.searchCall vec]⟩

/-- The function `get_recipes_by_query` (api.py lines 149-204).  The hit test is Python
truthiness of the deserialized payload: only a non-empty cached list takes
the cached branch.  The source defaults are `page = 1`,
`items_per_page = 3`; the model passes both explicitly. -/
def get_recipes_by_query (env : SearchEnv) (query_text : String)
    (page items_per_page : Int) : RunResult :=
  match (get_cached_results env.store query_text).1 with
  | some (x :: xs) =>
      ⟨.ok (pySlice (x :: xs) ((page - 1) * items_per_page)
              ((page - 1) * items_per_page + items_per_page)),
       env.store, (get_cached_results env.store query_text).2⟩
  | _ => missPath env query_text page items_per_page

/-- The body of the `/recipes` endpoint response (api.py lines 264-289). -/
inductive RecipesResponse where
  | error (msg : String)
  | page (query : String) (page : Int) (results : List Item) (has_more : Bool)
deriving Repr, DecidableEq

/-- Outcome of one `/recipes` request. -/
structure EndpointResult where
  resp : RecipesResponse
  store : CacheStore
  events : List Event

/-- The endpoint handler `get_recipes` (api.py lines 264-289): reject `page < 1` before touching
any dependency; otherwise run the search with the default page size 3,
converting a propagated exception into `\x7berror: str(e)\x7d`, and report
`has_more = (len(results) == 3)`. -/
def get_recipes (env : SearchEnv) (query : String) (page : Int) : EndpointResult :=
  if page < 1 then
    ⟨.error "Page number must be greater than 0", env.store, []⟩
  else
    let r := get_recipes_by_query env query page 3
    match r.ret with
    | .error m => ⟨.error m, r.store, r.events⟩
    | .ok results => ⟨.page query page results (results.length == 3), r.store, r.events⟩

/-- The environment a click request runs against: the hash store, plus the
outcome of the Redis round trips (`fail = some m` models any Redis command
of `store_click_data` raising an exception with message `m`). -/
structure ClickEnv where
  store : ClickStore
  fail : Option String

/-- The function `store_click_data` (api.py lines 207-229): `EXISTS`, then either
`HINCRBY count 1` or `HSET count 1`. -/
def store_click_data (env : ClickEnv) (query link : String) :
    Except String (ClickStore × List Event) :=
  match env.fail with
  | some m => .error m
  | none =>
    let k := clickKey query link
    match List.lookup k env.store with
    | some c =>
        .ok ((k, c + 1) :: env.store, [Event.hashExists k, Event.hashIncrBy k "count" 1])
    | none =>
        .ok ((k, 1) :: env.store, [Event.hashExists k, Event.hashSet k "count" 1])

/-- The body of the `/click` endpoint response (api.py lines 236-251). -/
structure ClickResponse where
  status : String
  message : String
deriving Repr, DecidableEq

/-- The endpoint handler `record_click` (api.py lines 236-251): any exception from
`store_click_data` is caught and converted to a structured error response. -/
def record_click (env : ClickEnv) (query link : String) : ClickResponse × ClickStore :=
  match store_click_data env query link with
  | .ok (s', _) => (⟨"success", "Click data recorded"⟩, s')
  | .error m => (⟨"error", m⟩, env.store)

/-- Iterated clicks: `n` consecutive successful `store_click_data` calls for the same pair,
starting from `s`. -/
def recordClicks : Nat → ClickStore → String → String → ClickStore
  | 0, s, _, _ => s
  | n + 1, s, q, l =>
    match store_click_data ⟨s, none⟩ q l with
    | .ok (s', _) => recordClicks n s' q l
    | .error _ => s

/-- Number of encoder invocations in a trace. -/
def countEncode (evs : List Event) : Nat :=
  (evs.filter fun e => match e with | .encodeCall _ => true | _ => false).length

/-- Number of backend search invocations in a trace. -/
def countSearch (evs : List Event) : Nat :=
  (evs.filter fun e => match e with | .searchCall _ => true | _ => false).length

/-! Concrete fixtures used by witnesses and counterexamples. -/

/-- A first fixture item. -/
def itemA : Item := ⟨"Recipe A", "link-a"⟩

/-- A second fixture item. -/
def itemB : Item := ⟨"Recipe B", "link-b"⟩

/-- A third fixture item. -/
def itemC : Item := ⟨"Recipe C", "link-c"⟩

/-- A fixture result set of exactly three items. -/
def threeItems : List Item := [itemA, itemB, itemC]

/-- A fixture backend document carrying both fields. -/
def docT : Doc := ⟨some "T", some "L"⟩

/-- An environment whose cache already holds `threeItems` for query `"q"`;
its encoder and backend fail if ever consulted. -/
def hitEnv : SearchEnv :=
  ⟨fun _ => .error "unused", fun _ => .error "unused", [(cacheKey "q", threeItems)], .ok ()⟩

/-- An environment with an empty cache and healthy collaborators. -/
def missEnv : SearchEnv :=
  ⟨fun _ => .ok [1], fun _ => .ok [docT], [], .ok ()⟩

/-- An environment whose cache write fails with `OutOfMemoryError`. -/
def oomEnv : SearchEnv :=
  ⟨fun _ => .ok [1], fun _ => .ok [docT], [], .error (.outOfMemory "OOM command not allowed")⟩

/-- An environment whose cache write fails with an exception that is not
`OutOfMemoryError`. -/
def connFailEnv : SearchEnv :=
  ⟨fun _ => .ok [1], fun _ => .ok [docT], [], .error (.other "connection refused")⟩

/-- An environment whose cache holds the empty list for query `"q"`. -/
def emptyCacheEnv : SearchEnv :=
  ⟨fun _ => .ok [1], fun _ => .ok [docT], [(cacheKey "q", [])], .ok ()⟩

/-- An environment whose encoder raises. -/
def encodeFailEnv : SearchEnv :=
  ⟨fun _ => .error "encoder down", fun _ => .ok [docT], [], .ok ()⟩

/-- An environment whose search backend raises. -/
def searchFailEnv : SearchEnv :=
  ⟨fun _ => .ok [1], fun _ => .error "backend down", [], .ok ()⟩

/-! Claim theorems. -/

/-- Claim C5: recording a click with no existing record creates it with
count 1 via `HSET`; with an existing record of count `c` it increments to
`c + 1` via `HINCRBY`; starting from an empty store, one click followed by
three more yields count 4; and the store key is exactly
`"clicks:" ++ query ++ ":" ++ link`. -/
theorem c5_click_counts :
    (∀ (s : ClickStore) (q l : String),
        List.lookup (clickKey q l) s = none →
        store_click_data ⟨s, none⟩ q l =
          .ok ((clickKey q l, 1) :: s,
               [Event.hashExists (clickKey q l), Event.hashSet (clickKey q l) "count" 1])) ∧
    (∀ (s : ClickStore) (q l : String) (c : Int),
        List.lookup (clickKey q l) s = some c →
        store_click_data ⟨s, none⟩ q l =
          .ok ((clickKey q l, c + 1) :: s,
               [Event.hashExists (clickKey q l),
                Event.hashIncrBy (clickKey q l) "count" 1])) ∧
    (∀ q l : String, List.lookup (clickKey q l) (recordClicks 4 [] q l) = some 4) ∧
    (∀ q l : String, clickKey q l = "clicks:" ++ q ++ ":" ++ l) := by
  refine ⟨?_, ?_, ?_, fun q l => rfl⟩
  · intro s q l h
    simp [store_click_data, h]
  · intro s q l c h
    simp [store_click_data, h]
  · intro q l
    simp [recordClicks, store_click_data, List.lookup]

/-- Witness for C5 at a concrete store and pair. -/
theorem c5_click_counts_witness :
    store_click_data ⟨[], none⟩ "tq" "lk" =
      .ok ((clickKey "tq" "lk", 1) :: [],
           [Event.hashExists (clickKey "tq" "lk"),
            Event.hashSet (clickKey "tq" "lk") "count" 1]) ∧
    store_click_data ⟨[(clickKey "tq" "lk", 1)], none⟩ "tq" "lk" =
      .ok ((clickKey "tq" "lk", 1 + 1) :: [(clickKey "tq" "lk", 1)],
           [Event.hashExists (clickKey "tq" "lk"),
            Event.hashIncrBy (clickKey "tq" "lk") "count" 1]) :=
  ⟨c5_click_counts.1 [] "tq" "lk" rfl,
   c5_click_counts.2.1 [(clickKey "tq" "lk", 1)] "tq" "lk" 1 (by decide)⟩

/-- Claim C6: for any environment and any `page < 1`, the `/recipes` handler
answers the fixed validation message, performs no external call at all (the
event trace is empty, so neither the encoder nor the backend nor the cache
store is touched), and leaves the store unchanged.  The response is produced
before and independently of every dependency, unlike backend or cache
failures, which arise from a dependency call. -/
theorem c6_invalid_page (env : SearchEnv) (q : String) (page : Int) (h : page < 1) :
    (get_recipes env q page).resp = .error "Page number must be greater than 0" ∧
    (get_recipes env q page).events = [] ∧
    (get_recipes env q page).store = env.store := by
  unfold get_recipes
  rw [if_pos h]
  exact ⟨rfl, rfl, rfl⟩

/-- Witness for C6 at `page = 0`. -/
theorem c6_invalid_page_witness :
    (get_recipes hitEnv "q" 0).resp = .error "Page number must be greater than 0" ∧
    (get_recipes hitEnv "q" 0).events = [] ∧
    (get_recipes hitEnv "q" 0).store = hitEnv.store :=
  c6_invalid_page hitEnv "q" 0 (by decide)

/-- Claim C7: the cache key is exactly `"search_cache:" ++ query_text` (both
the read and the write go through `cacheKey`), the key function is injective
(so distinct literal query strings never share a cache entry), and in
particular `"Pasta"` and `"pasta"` get distinct keys. -/
theorem c7_cache_key_exact :
    (∀ q : String, cacheKey q = "search_cache:" ++ q) ∧
    (∀ (store : CacheStore) (q : String),
        (get_cached_results store q).2 = [Event.cacheGet ("search_cache:" ++ q)]) ∧
    (∀ a b : String, cacheKey a = cacheKey b → a = b) ∧
    cacheKey "Pasta" ≠ cacheKey "pasta" := by
  refine ⟨fun q => rfl, fun store q => rfl, ?_, by decide⟩
  intro a b h
  have hd := congrArg String.data h
  simp only [cacheKey, String.data_append] at hd
  exact String.ext (List.append_cancel_left hd)

/-- Witness for C7: the injectivity conjunct applied at a concrete pair. -/
theorem c7_cache_key_exact_witness : "Pasta" = "Pasta" :=
  c7_cache_key_exact.2.2.1 "Pasta" "Pasta" rfl

/-- Claim C10: every element of the list `get_recipes_by_query` builds from
the backend documents is `mkItem` of some document (a record with exactly
the two fields `title` and `link`, as the `Item` structure and its eta rule
state), and a missing `title` or `link` field is replaced by the default
string. -/
theorem c10_item_fields :
    (∀ (docs : List Doc) (it : Item), it ∈ buildItems docs →
        ∃ d, d ∈ docs ∧ it = mkItem d) ∧
    (∀ d : Doc, (mkItem d).title = d.title.getD "No title available" ∧
        (mkItem d).link = d.link.getD "No link available") ∧
    (∀ d : Doc, d.title = none → (mkItem d).title = "No title available") ∧
    (∀ d : Doc, d.link = none → (mkItem d).link = "No link available") ∧
    (∀ it : Item, it = ⟨it.title, it.link⟩) := by
  refine ⟨?_, fun d => ⟨rfl, rfl⟩, ?_, ?_, fun it => rfl⟩
  · intro docs it h
    rcases List.mem_map.mp h with ⟨d, hd, rfl⟩
    exact ⟨d, hd, rfl⟩
  · intro d h
    simp [mkItem, h]
  · intro d h
    simp [mkItem, h]

/-- Witness for C10 at a document lacking its title field. -/
theorem c10_item_fields_witness :
    (⟨none, some "l2"⟩ : Doc).title = none ∧
    (mkItem ⟨none, some "l2"⟩).title = "No title available" :=
  ⟨rfl, c10_item_fields.2.2.1 ⟨none, some "l2"⟩ rfl⟩

/-- Claim C2: whenever the `/recipes` handler answers with a results page
(for any environment, query, and `page ≥ 1`), `has_more` is `true` exactly
when the returned list is full (its length equals the page size 3 that the
endpoint always uses); and concretely, with a result set of exactly 3 items,
page 1 returns all three with `has_more = true` while page 2 returns the
empty list with `has_more = false`. -/
theorem c2_has_more :
    (∀ (env : SearchEnv) (query : String) (page : Int) (results : List Item) (hm : Bool),
        1 ≤ page →
        (get_recipes env query page).resp = .page query page results hm →
        (hm = true ↔ results.length = 3)) ∧
    (get_recipes hitEnv "q" 1).resp = .page "q" 1 threeItems true ∧
    (get_recipes hitEnv "q" 2).resp = .page "q" 2 [] false := by
  refine ⟨?_, by decide, by decide⟩
  intro env query page results hm hpage hresp
  have hnot : ¬ page < 1 := by omega
  simp only [get_recipes, if_neg hnot] at hresp
  cases hret : (get_recipes_by_query env query page 3).ret with
  | error m =>
      rw [hret] at hresp
      simp at hresp
  | ok rs =>
      rw [hret] at hresp
      simp only [RecipesResponse.page.injEq] at hresp
      obtain ⟨-, -, hrs, hhm⟩ := hresp
      subst hrs
      subst hhm
      simp

/-- Witness for C2: the general conjunct at the concrete three-item page 1. -/
theorem c2_has_more_witness : (true = true ↔ threeItems.length = 3) :=
  c2_has_more.1 hitEnv "q" 1 threeItems true (by decide) (by decide)

/-- Claim C4: on a cache miss with healthy collaborators, the run performs
exactly one encoder call and one backend search, then one `SETEX` of the
full unpaginated result list under the query's cache key with the fixed TTL
`CACHE_EXPIRATION = 3` (the trace lists the write before the paginated slice
is produced as the return value), and returns the requested page of that
full list. -/
theorem c4_miss_pipeline (env : SearchEnv) (q : String) (page ipp : Int) (vec : Vec)
    (docs : List Doc)
    (hmiss : List.lookup (cacheKey q) env.store = none)
    (henc : env.encode q = .ok vec)
    (hsearch : env.search vec = .ok docs)
    (hsetex : env.setexOutcome = .ok ()) :
    (get_recipes_by_query env q page ipp).events =
      [Event.cacheGet (cacheKey q), Event.encodeCall q, Event.searchCall vec,
       Event.cacheSetex (cacheKey q) CACHE_EXPIRATION (buildItems docs)] ∧
    countEncode (get_recipes_by_query env q page ipp).events = 1 ∧
    countSearch (get_recipes_by_query env q page ipp).events = 1 ∧
    CACHE_EXPIRATION = 3 ∧
    List.lookup (cacheKey q) (get_recipes_by_query env q page ipp).store =
      some (buildItems docs) ∧
    (get_recipes_by_query env q page ipp).ret =
      .ok (pySlice (buildItems docs) ((page - 1) * ipp) ((page - 1) * ipp + ipp)) := by
  have hrun : get_recipes_by_query env q page ipp =
      ⟨.ok (pySlice (buildItems docs) ((page - 1) * ipp) ((page - 1) * ipp + ipp)),
       (cacheKey q, buildItems docs) :: env.store,
       [Event.cacheGet (cacheKey q), Event.encodeCall q, Event.searchCall vec,
        Event.cacheSetex (cacheKey q) CACHE_EXPIRATION (buildItems docs)]⟩ := by
    simp only [get_recipes_by_query, get_cached_results, hmiss, missPath, henc, hsearch,
      cache_results, hsetex]
  rw [hrun]
  refine ⟨rfl, rfl, rfl, rfl, ?_, rfl⟩
  simp [List.lookup]

/-- Witness for C4 at a concrete miss environment. -/
theorem c4_miss_pipeline_witness :
    (get_recipes_by_query missEnv "q" 1 3).events =
      [Event.cacheGet (cacheKey "q"), Event.encodeCall "q", Event.searchCall [1],
       Event.cacheSetex (cacheKey "q") CACHE_EXPIRATION (buildItems [docT])] ∧
    countEncode (get_recipes_by_query missEnv "q" 1 3).events = 1 ∧
    countSearch (get_recipes_by_query missEnv "q" 1 3).events = 1 ∧
    CACHE_EXPIRATION = 3 ∧
    List.lookup (cacheKey "q") (get_recipes_by_query missEnv "q" 1 3).store =
      some (buildItems [docT]) ∧
    (get_recipes_by_query missEnv "q" 1 3).ret =
      .ok (pySlice (buildItems [docT]) ((1 - 1) * 3) ((1 - 1) * 3 + 3)) :=
  c4_miss_pipeline missEnv "q" 1 3 [1] [docT] rfl rfl rfl rfl

/-- Claim C1 is false as stated: `get_recipes_by_query` catches only
`redis.exceptions.OutOfMemoryError` around the cache write, so a write
failure of any other exception class propagates.  Concretely, with a cache
miss, a healthy encoder and backend, and a `SETEX` that fails with a
connection error, the run raises instead of returning the correct page
(which would have been `[⟨"T", "L"⟩]`). -/
theorem c1_counterexample :
    (get_recipes_by_query connFailEnv "q" 1 3).ret = Except.error "connection refused" ∧
    pySlice (buildItems [docT]) ((1 - 1) * 3) ((1 - 1) * 3 + 3) = [⟨"T", "L"⟩] ∧
    (Except.error "connection refused" : Except String (List Item)) ≠
      Except.ok [(⟨"T", "L"⟩ : Item)] :=
  ⟨rfl, rfl, fun h => nomatch h⟩

/-- Claim C1 (amended): if the cache write fails with the store's
resource-exhaustion error (`OutOfMemoryError`) — the one failure class the
source catches — the search still returns the correct paginated results and
leaves the store unchanged; a write failure of any other class propagates
out of `get_recipes_by_query`. -/
theorem c1_amended (env : SearchEnv) (q : String) (page ipp : Int) (vec : Vec)
    (docs : List Doc) (m : String)
    (hmiss : List.lookup (cacheKey q) env.store = none)
    (henc : env.encode q = .ok vec)
    (hsearch : env.search vec = .ok docs)
    (hoom : env.setexOutcome = .error (.outOfMemory m)) :
    (get_recipes_by_query env q page ipp).ret =
      .ok (pySlice (buildItems docs) ((page - 1) * ipp) ((page - 1) * ipp + ipp)) ∧
    (get_recipes_by_query env q page ipp).store = env.store := by
  have hrun : get_recipes_by_query env q page ipp =
      ⟨.ok (pySlice (buildItems docs) ((page - 1) * ipp) ((page - 1) * ipp + ipp)),
       env.store,
       [Event.cacheGet (cacheKey q), Event.encodeCall q, Event.searchCall vec]⟩ := by
    simp only [get_recipes_by_query, get_cached_results, hmiss, missPath, henc, hsearch,
      cache_results, hoom]
  rw [hrun]
  exact ⟨rfl, rfl⟩

/-- Witness for the amended C1 at a concrete out-of-memory environment. -/
theorem c1_amended_witness :
    (get_recipes_by_query oomEnv "q" 1 3).ret =
      .ok (pySlice (buildItems [docT]) ((1 - 1) * 3) ((1 - 1) * 3 + 3)) ∧
    (get_recipes_by_query oomEnv "q" 1 3).store = oomEnv.store :=
  c1_amended oomEnv "q" 1 3 [1] [docT] "OOM command not allowed" rfl rfl rfl rfl

/-- Claim C8: on the cache-miss path an encoder failure or a backend failure
is not swallowed — it propagates out of `get_recipes_by_query` and the
`/recipes` handler converts it into an error response carrying the
exception's message; and a click-store failure is caught at the `/click`
handler and converted into a structured error response. -/
theorem c8_failure_propagation :
    (∀ (env : SearchEnv) (q : String) (page : Int) (m : String),
        ¬ page < 1 →
        List.lookup (cacheKey q) env.store = none →
        env.encode q = .error m →
        (get_recipes env q page).resp = .error m) ∧
    (∀ (env : SearchEnv) (q : String) (page : Int) (vec : Vec) (m : String),
        ¬ page < 1 →
        List.lookup (cacheKey q) env.store = none →
        env.encode q = .ok vec →
        env.search vec = .error m →
        (get_recipes env q page).resp = .error m) ∧
    (∀ (s : ClickStore) (q l m : String),
        record_click ⟨s, some m⟩ q l = (⟨"error", m⟩, s)) := by
  refine ⟨?_, ?_, fun s q l m => rfl⟩
  · intro env q page m hpage hmiss henc
    have hrun : get_recipes_by_query env q page 3 =
        ⟨.error m, env.store, [Event.cacheGet (cacheKey q), Event.encodeCall q]⟩ := by
      simp only [get_recipes_by_query, get_cached_results, hmiss, missPath, henc]
    simp only [get_recipes, if_neg hpage, hrun]
  · intro env q page vec m hpage hmiss henc hsearch
    have hrun : get_recipes_by_query env q page 3 =
        ⟨.error m, env.store,
         [Event.cacheGet (cacheKey q), Event.encodeCall q, Event.searchCall vec]⟩ := by
      simp only [get_recipes_by_query, get_cached_results, hmiss, missPath, henc, hsearch]
    simp only [get_recipes, if_neg hpage, hrun]

/-- Witness for C8 at concrete failing environments. -/
theorem c8_failure_propagation_witness :
    (get_recipes encodeFailEnv "q" 1).resp = .error "encoder down" ∧
    (get_recipes searchFailEnv "q" 1).resp = .error "backend down" ∧
    record_click ⟨[], some "boom"⟩ "q" "l" = (⟨"error", "boom"⟩, []) :=
  ⟨c8_failure_propagation.1 encodeFailEnv "q" 1 "encoder down" (by decide) rfl rfl,
   c8_failure_propagation.2.1 searchFailEnv "q" 1 [1] "backend down" (by decide) rfl rfl rfl,
   c8_failure_propagation.2.2 [] "q" "l" "boom"⟩

/-- Characterization of the miss path when the encoder raises. -/
theorem missPath_encode_error (env : SearchEnv) (q : String) (page ipp : Int)
    (m : String) (hE : env.encode q = .error m) :
    missPath env q page ipp =
      ⟨.error m, env.store,
       [Event.cacheGet (cacheKey q), Event.encodeCall q]⟩ := by
  simp only [missPath, hE]

/-- Characterization of the miss path when the backend search raises. -/
theorem missPath_search_error (env : SearchEnv) (q : String) (page ipp : Int)
    (vec : Vec) (m : String) (hE : env.encode q = .ok vec)
    (hS : env.search vec = .error m) :
    missPath env q page ipp =
      ⟨.error m, env.store,
       [Event.cacheGet (cacheKey q), Event.encodeCall q, Event.searchCall vec]⟩ := by
  simp only [missPath, hE, hS]

/-- Characterization of the miss path when every collaborator succeeds. -/
theorem missPath_setex_ok (env : SearchEnv) (q : String) (page ipp : Int)
    (vec : Vec) (docs : List Doc) (hE : env.encode q = .ok vec)
    (hS : env.search vec = .ok docs) (hX : env.setexOutcome = .ok ()) :
    missPath env q page ipp =
      ⟨.ok (pySlice (buildItems docs) ((page - 1) * ipp) ((page - 1) * ipp + ipp)),
       (cacheKey q, buildItems docs) :: env.store,
       [Event.cacheGet (cacheKey q), Event.encodeCall q, Event.searchCall vec,
        Event.cacheSetex (cacheKey q) CACHE_EXPIRATION (buildItems docs)]⟩ := by
  simp only [missPath, hE, hS, cache_results, hX]

/-- Characterization of the miss path when the cache write fails with the
out-of-memory error (swallowed). -/
theorem missPath_setex_oom (env : SearchEnv) (q : String) (page ipp : Int)
    (vec : Vec) (docs : List Doc) (m : String) (hE : env.encode q = .ok vec)
    (hS : env.search vec = .ok docs)
    (hX : env.setexOutcome = .error (.outOfMemory m)) :
    missPath env q page ipp =
      ⟨.ok (pySlice (buildItems docs) ((page - 1) * ipp) ((page - 1) * ipp + ipp)),
       env.store,
       [Event.cacheGet (cacheKey q), Event.encodeCall q, Event.searchCall vec]⟩ := by
  simp only [missPath, hE, hS, cache_results, hX]

/-- Characterization of the miss path when the cache write fails with any
other exception (propagated). -/
theorem missPath_setex_other (env : SearchEnv) (q : String) (page ipp : Int)
    (vec : Vec) (docs : List Doc) (m : String) (hE : env.encode q = .ok vec)
    (hS : env.search vec = .ok docs)
    (hX : env.setexOutcome = .error (.other m)) :
    missPath env q page ipp =
      ⟨.error m, env.store,
       [Event.cacheGet (cacheKey q), Event.encodeCall q, Event.searchCall vec]⟩ := by
  simp only [missPath, hE, hS, cache_results, hX]

/-- Python slicing with nonnegative bounds is drop-then-take. -/
theorem pySlice_eq_drop_take (l : List Item) (a b : Int) (ha : 0 ≤ a) (hb : 0 ≤ b) :
    pySlice l a b = (l.drop a.toNat).take (b.toNat - a.toNat) := by
  simp only [pySlice, pyIndex]
  rw [if_neg (not_lt.mpr ha), if_neg (not_lt.mpr hb)]
  rcases le_or_lt a.toNat l.length with h | h
  · rw [min_eq_left h]
    rcases le_or_lt b.toNat l.length with h2 | h2
    · rw [min_eq_left h2]
    · rw [min_eq_right h2.le,
        List.take_of_length_le (by rw [List.length_drop]),
        List.take_of_length_le (by rw [List.length_drop]; omega)]
  · rw [min_eq_right h.le, List.drop_length, List.drop_eq_nil_of_le h.le]
    simp

/-- Claim C3 is false as stated for `N = 0`: a cache entry holding the empty
list is rejected by the truthiness test, so the run does call the encoder
and returns the freshly searched results rather than the (empty) slice of
the cached list. -/
theorem c3_counterexample :
    List.lookup (cacheKey "q") emptyCacheEnv.store = some [] ∧
    (get_recipes_by_query emptyCacheEnv "q" 1 3).ret = Except.ok [mkItem docT] ∧
    [mkItem docT] ≠ pySlice [] ((1 - 1) * 3) (1 * 3) ∧
    Event.encodeCall "q" ∈ (get_recipes_by_query emptyCacheEnv "q" 1 3).events := by
  refine ⟨rfl, rfl, by decide, by decide⟩

/-- Claim C3 (amended): for every query whose cache entry holds a *nonempty*
list of items, requesting page `p ≥ 1` with page size `s ≥ 0` returns
exactly the sublist `[(p-1)*s, p*s)` of the cached list (drop-then-take, in
the cached order), the only external call is the one cache `GET` (no encoder
and no backend call), the store is unchanged, and an out-of-range slice is
the empty page rather than an error. -/
theorem c3_amended (env : SearchEnv) (q : String) (page s : Int) (l : List Item)
    (hl : List.lookup (cacheKey q) env.store = some l) (hne : l ≠ [])
    (hpage : 1 ≤ page) (hs : 0 ≤ s) :
    (get_recipes_by_query env q page s).ret =
      .ok (pySlice l ((page - 1) * s) (page * s)) ∧
    (get_recipes_by_query env q page s).events = [Event.cacheGet (cacheKey q)] ∧
    (get_recipes_by_query env q page s).store = env.store ∧
    pySlice l ((page - 1) * s) (page * s) =
      (l.drop ((page - 1) * s).toNat).take s.toNat ∧
    (l.length ≤ ((page - 1) * s).toNat →
        pySlice l ((page - 1) * s) (page * s) = []) := by
  have ha : 0 ≤ (page - 1) * s := mul_nonneg (by omega) hs
  have hb : 0 ≤ page * s := mul_nonneg (by omega) hs
  have hidx : (page - 1) * s + s = page * s := by ring
  have hdt : pySlice l ((page - 1) * s) (page * s) =
      (l.drop ((page - 1) * s).toNat).take s.toNat := by
    rw [pySlice_eq_drop_take l _ _ ha hb]
    congr 1
    rw [← hidx]
    omega
  obtain ⟨x, xs, rfl⟩ : ∃ x xs, l = x :: xs := by
    cases l with
    | nil => exact absurd rfl hne
    | cons x xs => exact ⟨x, xs, rfl⟩
  have hrun : get_recipes_by_query env q page s =
      ⟨.ok (pySlice (x :: xs) ((page - 1) * s) ((page - 1) * s + s)), env.store,
       [Event.cacheGet (cacheKey q)]⟩ := by
    simp only [get_recipes_by_query, get_cached_results, hl]
  rw [hrun, hidx]
  refine ⟨rfl, rfl, rfl, hdt, fun h => ?_⟩
  rw [hdt, List.drop_eq_nil_of_le h]
  simp

/-- Witness for the amended C3: the three-item cached entry at page 2 of
size 3 (an out-of-range slice, giving the empty page). -/
theorem c3_amended_witness :
    List.lookup (cacheKey "q") hitEnv.store = some threeItems ∧
    (get_recipes_by_query hitEnv "q" 2 3).ret =
      .ok (pySlice threeItems ((2 - 1) * 3) (2 * 3)) :=
  ⟨rfl, (c3_amended hitEnv "q" 2 3 threeItems rfl (by decide) (by decide) (by decide)).1⟩

/-- Claim C9: a cached payload that deserializes to the empty list is not
served from the cache: the run returns the same result with the same
external-call trace as a run against an environment with no cache entry at
all, the encoder is invoked, and (whenever encoding succeeds) the search
backend is invoked as well. -/
theorem c9_empty_cache_is_miss (env env' : SearchEnv) (q : String) (page ipp : Int)
    (h : List.lookup (cacheKey q) env.store = some [])
    (h' : List.lookup (cacheKey q) env'.store = none)
    (henc : env'.encode = env.encode)
    (hsearch : env'.search = env.search)
    (hsx : env'.setexOutcome = env.setexOutcome) :
    (get_recipes_by_query env q page ipp).ret =
      (get_recipes_by_query env' q page ipp).ret ∧
    (get_recipes_by_query env q page ipp).events =
      (get_recipes_by_query env' q page ipp).events ∧
    Event.encodeCall q ∈ (get_recipes_by_query env q page ipp).events ∧
    (∀ vec, env.encode q = .ok vec →
        Event.searchCall vec ∈ (get_recipes_by_query env q page ipp).events) := by
  have e1 : get_recipes_by_query env q page ipp = missPath env q page ipp := by
    simp only [get_recipes_by_query, get_cached_results, h]
  have e2 : get_recipes_by_query env' q page ipp = missPath env' q page ipp := by
    simp only [get_recipes_by_query, get_cached_results, h']
  rw [e1, e2]
  cases hE : env.encode q with
  | error m =>
      have hE' : env'.encode q = .error m := by rw [henc, hE]
      rw [missPath_encode_error env q page ipp m hE,
        missPath_encode_error env' q page ipp m hE']
      exact ⟨rfl, rfl, by simp, fun vec hv => nomatch hv⟩
  | ok vec =>
      have hE' : env'.encode q = .ok vec := by rw [henc, hE]
      cases hS : env.search vec with
      | error m =>
          have hS' : env'.search vec = .error m := by rw [hsearch, hS]
          rw [missPath_search_error env q page ipp vec m hE hS,
            missPath_search_error env' q page ipp vec m hE' hS']
          refine ⟨rfl, rfl, by simp, fun v hv => ?_⟩
          obtain rfl : vec = v := by injection hv
          simp
      | ok docs =>
          cases hX : env.setexOutcome with
          | ok u =>
              have hX' : env'.setexOutcome = .ok u := by rw [hsx, hX]
              rw [missPath_setex_ok env q page ipp vec docs hE hS hX,
                missPath_setex_ok env' q page ipp vec docs hE'
                  (hsearch ▸ hS) hX']
              refine ⟨rfl, rfl, by simp, fun v hv => ?_⟩
              obtain rfl : vec = v := by injection hv
              simp
          | error e =>
              cases e with
              | outOfMemory m =>
                  have hX' : env'.setexOutcome = .error (.outOfMemory m) := by
                    rw [hsx, hX]
                  rw [missPath_setex_oom env q page ipp vec docs m hE hS hX,
                    missPath_setex_oom env' q page ipp vec docs m hE'
                      (hsearch ▸ hS) hX']
                  refine ⟨rfl, rfl, by simp, fun v hv => ?_⟩
                  obtain rfl : vec = v := by injection hv
                  simp
              | other m =>
                  have hX' : env'.setexOutcome = .error (.other m) := by rw [hsx, hX]
                  rw [missPath_setex_other env q page ipp vec docs m hE hS hX,
                    missPath_setex_other env' q page ipp vec docs m hE'
                      (hsearch ▸ hS) hX']
                  refine ⟨rfl, rfl, by simp, fun v hv => ?_⟩
                  obtain rfl : vec = v := by injection hv
                  simp

/-- Witness for C9: the empty cached entry against the entry-free
environment with the same collaborators. -/
theorem c9_empty_cache_is_miss_witness :
    List.lookup (cacheKey "q") emptyCacheEnv.store = some [] ∧
    Event.searchCall [1] ∈ (get_recipes_by_query emptyCacheEnv "q" 1 3).events :=
  ⟨rfl,
   (c9_empty_cache_is_miss emptyCacheEnv missEnv "q" 1 3 rfl rfl rfl rfl rfl).2.2.2 [1] rfl⟩

end RecipeApi
